import Mathlib

/-!
# Verification of the college-navigator backend (`src/app.py`)

Shallow embedding of the Flask + MongoDB request handlers in `src/app.py`:
documents are association lists of JSON-like values, each Mongo collection is a
list of documents, and every handler is a pure function from a request (body,
path parameters, the current clock value, and the outcome of any boundary
service call) and the store state to a response together with the new state.

An internal store fault is modelled by an explicit `fault : Option String`
argument: `some e` means the first store operation of the handler raises an
exception whose message is `e`, which the handler's `except` block converts to
a response exactly as the Python code does.
-/

/-- A UTC instant, as produced by `datetime.utcnow()` / `datetime.strptime`. -/
structure DateTime where
  year : Nat
  month : Nat
  day : Nat
  hour : Nat
  minute : Nat
  second : Nat
deriving DecidableEq, Repr

/-- JSON-like document values, extended with the BSON types the code uses:
`datetime` values (`time`) and `ObjectId` identifiers (`oid`).  Nested arrays
and objects are encoded as cons-chains inside the same inductive (`anil` /
`acons` for arrays, `onil` / `ocons` for objects) so that decidable equality
is derivable. -/
inductive JVal where
  | null
  | bool (b : Bool)
  | num (n : Int)
  | str (s : String)
  | time (t : DateTime)
  | oid (n : Nat)
  | anil
  | acons (v : JVal) (rest : JVal)
  | onil
  | ocons (k : String) (v : JVal) (rest : JVal)
deriving DecidableEq, Repr

/-- A document / JSON object body: an ordered association list, as both Python
dicts and BSON documents are ordered maps. -/
abbrev Doc := List (String × JVal)

/-- Build a nested array value from a list of values. -/
def jarr : List JVal → JVal
  | [] => .anil
  | v :: rest => .acons v (jarr rest)

/-- Build a nested object value from an association list. -/
def jobj : Doc → JVal
  | [] => .onil
  | (k, v) :: rest => .ocons k v (jobj rest)

/-- The elements of a nested array value (non-array values have no elements). -/
def jvalElems : JVal → List JVal
  | .acons v rest => v :: jvalElems rest
  | _ => []

/-- `isinstance(v, list)` for a nested value. -/
def isArrVal : JVal → Bool
  | .anil => true
  | .acons _ _ => true
  | _ => false

/-- `isinstance(v, dict)` for a nested value. -/
def isObjVal : JVal → Bool
  | .onil => true
  | .ocons _ _ _ => true
  | _ => false

/-- `key in v` for a nested object value. -/
def objHasKey : JVal → String → Bool
  | .ocons k _ rest, key => k = key || objHasKey rest key
  | _, _ => false

/-- List append on the array encoding: `arrAppend a r` adds `r` at the end of
the chain `a` (Mongo `$push`). -/
def arrAppend : JVal → JVal → JVal
  | .acons v rest, r => .acons v (arrAppend rest r)
  | _, r => .acons r .anil

/-- First value bound to key `k`, i.e. Python `d.get(k)` / dict indexing
(`none` = key absent). -/
def getField (d : Doc) (k : String) : Option JVal :=
  match d with
  | [] => none
  | (k₀, v₀) :: rest => if k₀ = k then some v₀ else getField rest k

/-- Python `d[k] = v` on a dict (and Mongo `$set` of a single field): replace
the value at the first occurrence of `k`, or append the binding if absent. -/
def setField (d : Doc) (k : String) (v : JVal) : Doc :=
  match d with
  | [] => [(k, v)]
  | (k₀, v₀) :: rest => if k₀ = k then (k₀, v) :: rest else (k₀, v₀) :: setField rest k v

/-- Mongo `$set` with an update document: set each field in turn. -/
def setFields (d : Doc) (u : Doc) : Doc :=
  match u with
  | [] => d
  | (k, v) :: rest => setFields (setField d k v) rest

/-- Python truthiness of a JSON value (`if not token`). -/
def jTruthy : JVal → Bool
  | .null => false
  | .bool b => b
  | .num n => n != 0
  | .str s => s != ""
  | .time _ => true
  | .oid _ => true
  | .anil => false
  | .acons _ _ => true
  | .onil => false
  | .ocons _ _ _ => true

/-! ## `datetime.strptime` for the two formats the code uses -/

/-- Leap-year rule used by the Gregorian calendar (and CPython's `datetime`). -/
def isLeap (y : Nat) : Bool :=
  (y % 4 == 0 && y % 100 != 0) || y % 400 == 0

/-- Number of days in a month, as validated by `datetime.strptime`. -/
def daysInMonth (y m : Nat) : Nat :=
  if m = 2 then (if isLeap y then 29 else 28)
  else if m = 4 ∨ m = 6 ∨ m = 9 ∨ m = 11 then 30
  else 31

/-- Split a character list at every occurrence of the separator `c`
(the splitting `strptime` performs at the literal separators of the format). -/
def splitOnChar (c : Char) : List Char → List (List Char)
  | [] => [[]]
  | x :: xs =>
    if x = c then [] :: splitOnChar c xs
    else
      match splitOnChar c xs with
      | r :: rs => (x :: r) :: rs
      | [] => [[x]]

/-- A numeric field of a `strptime` format: all digits, between `lo` and `hi`
digits wide (CPython matches `\d{lo,hi}` for the directives used here). -/
def numField (l : List Char) (lo hi : Nat) : Option Nat :=
  if lo ≤ l.length ∧ l.length ≤ hi ∧ l.length ≠ 0 ∧ l.all Char.isDigit then
    some (l.foldl (fun a c => a * 10 + (c.toNat - 48)) 0)
  else none

/-- `strptime` on the `%Y-%m-%d` part of a format, over characters: `%Y`
matches exactly four digits, `%m` and `%d` one or two; the `datetime`
constructor then rejects year 0 and any month/day outside the calendar
range. -/
def parseYMDChars (l : List Char) : Option DateTime :=
  match splitOnChar '-' l with
  | [ys, ms, ds] =>
    match numField ys 4 4, numField ms 1 2, numField ds 1 2 with
    | some y, some m, some d =>
      if 1 ≤ y ∧ 1 ≤ m ∧ m ≤ 12 ∧ 1 ≤ d ∧ d ≤ daysInMonth y m then
        some ⟨y, m, d, 0, 0, 0⟩
      else none
    | _, _, _ => none
  | _ => none

/-- `datetime.strptime(s, "%Y-%m-%d")`.  Returns `none` where CPython raises
`ValueError`. -/
def parseYMD (s : String) : Option DateTime :=
  parseYMDChars s.toList

/-- `datetime.strptime(s, "%Y-%m-%dT%H:%M:%SZ")`: full timestamp with literal
`T` and `Z`.  Returns `none` where CPython raises `ValueError`. -/
def parseTS (s : String) : Option DateTime :=
  match splitOnChar 'T' s.toList with
  | [dpart, tpart] =>
    match parseYMDChars dpart, splitOnChar ':' tpart with
    | some date, [hs, mins, secz] =>
      match secz.reverse with
      | 'Z' :: secrev =>
        match numField hs 1 2, numField mins 1 2, numField secrev.reverse 1 2 with
        | some h, some mi, some sec =>
          if h ≤ 23 ∧ mi ≤ 59 ∧ sec ≤ 59 then
            some ⟨date.year, date.month, date.day, h, mi, sec⟩
          else none
        | _, _, _ => none
      | _ => none
    | _, _ => none
  | _ => none

/-- Message of the `ValueError` CPython raises when `strptime` fails. -/
def strptimeErr (s fmt : String) : String :=
  "time data '" ++ s ++ "' does not match format '" ++ fmt ++ "'"

/-- The Python type name of a JSON/BSON value, as it appears in `TypeError`
messages. -/
def pyTypeName : JVal → String
  | .null => "NoneType"
  | .bool _ => "bool"
  | .num _ => "int"
  | .str _ => "str"
  | .time _ => "datetime.datetime"
  | .oid _ => "ObjectId"
  | .anil => "list"
  | .acons _ _ => "list"
  | .onil => "dict"
  | .ocons _ _ _ => "dict"

/-- Message of the `TypeError` CPython raises when `strptime` is applied to a
non-string value of the named type. -/
def strptimeTypeErr (t : String) : String :=
  "strptime() argument 1 must be str, not " ++ t

/-! ## The document store -/

/-- The four collections the handlers touch: `user_data`, `clg_data`,
`Event_data` and `clg_facility_data`. -/
structure State where
  users : List Doc
  colleges : List Doc
  events : List Doc
  facilities : List Doc
deriving DecidableEq, Repr

/-- `collection.find_one({k: v})`: first document whose field `k` equals `v`. -/
def findOne (coll : List Doc) (k : String) (v : JVal) : Option Doc :=
  coll.find? (fun d => getField d k = some v)

/-- `collection.update_one(filter, update)`: apply `f` to the first document
matching `p`; the second component is Mongo's `modified_count`, which counts
the document only if the update actually changed it. -/
def updateFirst (coll : List Doc) (p : Doc → Bool) (f : Doc → Doc) : List Doc × Nat :=
  match coll with
  | [] => ([], 0)
  | d :: rest =>
    if p d then ((f d) :: rest, if f d = d then 0 else 1)
    else
      let r := updateFirst rest p f
      (d :: r.1, r.2)

/-- `collection.delete_one(filter)`: remove the first document matching `p`;
the second component is `deleted_count`. -/
def deleteFirst (coll : List Doc) (p : Doc → Bool) : List Doc × Nat :=
  match coll with
  | [] => ([], 0)
  | d :: rest =>
    if p d then (rest, 1)
    else
      let r := deleteFirst rest p
      (d :: r.1, r.2)

/-- Mongo `$push` of value `r` onto array field `k` of one document: append if
the field holds an array, create a one-element array if the field is absent;
a non-array field is a store-level error, which this surface never produces
for `reviews`, and is modelled as leaving the document unchanged. -/
def pushField (d : Doc) (k : String) (r : JVal) : Doc :=
  match getField d k with
  | some v => if isArrVal v then setField d k (arrAppend v r) else d
  | none => setField d k (.acons r .anil)

/-- `str(object_id)` and `str()` of other primitive ids: only `ObjectId`
values are ever stringified by the code. -/
def idToStr : Option JVal → JVal
  | some (.oid n) => .str (toString n)
  | some v => v
  | none => .null

/-! ## Responses -/

/-- The JSON body `{success, message?, error?, data?}` together with the HTTP
status code.  `data` carries a document-shaped payload, `listData` a
list-shaped one (the listing GET routes); at most one of the two is set. -/
structure Resp where
  status : Nat
  success : Bool
  message : Option String
  error : Option String
  data : Option Doc
  listData : Option (List Doc)
deriving DecidableEq, Repr

/-- Result of one handler run: the response, the new store state, and the
number of store mutation calls performed. -/
structure HResult where
  resp : Resp
  state : State
  writes : Nat
deriving DecidableEq, Repr

/-- A failure response carrying `{"success": False, "error": e}`. -/
def errResp (status : Nat) (e : String) : Resp :=
  ⟨status, false, none, some e, none, none⟩

/-- A failure response carrying `{"success": False, "message": m}`. -/
def msgFail (status : Nat) (m : String) : Resp :=
  ⟨status, false, some m, none, none, none⟩

/-- A success response carrying `{success: True, message: m}` and no data. -/
def okMsg (status : Nat) (m : String) : Resp :=
  ⟨status, true, some m, none, none, none⟩

/-- A success response carrying `{success: True, data: l}` for a listing
route. -/
def okList (status : Nat) (l : List Doc) : Resp :=
  ⟨status, true, none, none, none, some l⟩

/-! ## Handlers

Each handler takes the request body as a parsed JSON object (`Doc`), the
relevant path parameter, the current clock value `now`, the store state, and
where relevant the outcome of the Google tokeninfo exchange.  `fault` injects
a store exception at the handler's first store operation. -/

/-- `POST /users/google-login` (`google_login` in `src/app.py`).
`googleStatus` and `userInfo` are the status code and JSON body returned by
the tokeninfo boundary service. -/
def googleLogin (fault : Option String) (body : Doc) (googleStatus : Nat)
    (userInfo : Doc) (now : DateTime) (s : State) : HResult :=
  let token := (getField body "credential").getD .null
  if ¬ jTruthy token then
    ⟨errResp 400 "Missing Google token", s, 0⟩
  else if googleStatus ≠ 200 then
    ⟨errResp 401 "Invalid Google Token", s, 0⟩
  else
    let email := (getField userInfo "email").getD .null
    let userData : Doc :=
      [("google_id", (getField userInfo "sub").getD .null),
       ("name", (getField userInfo "name").getD .null),
       ("email", email),
       ("profile_picture", (getField userInfo "picture").getD .null),
       ("role", .str "student"),
       ("last_login", .time now),
       ("created_at", .time now)]
    match fault with
    | some e => ⟨errResp 500 e, s, 0⟩
    | none =>
      match findOne s.users "email" email with
      | some existing =>
        let users₂ := (updateFirst s.users (fun d => getField d "email" = some email)
          (fun d => setFields d [("last_login", .time now)])).1
        let respUser := setField existing "_id" (idToStr (getField existing "_id"))
        ⟨⟨200, true, some "User logged in", none, some respUser, none⟩,
         { s with users := users₂ }, 1⟩
      | none =>
        let nid := s.users.length
        let stored := setField userData "_id" (.oid nid)
        let respUser := setField userData "_id" (.str (toString nid))
        ⟨⟨201, true, some "New user registered", none, some respUser, none⟩,
         { s with users := s.users ++ [stored] }, 1⟩

/-- The ten required top-level fields of `POST /colleges`. -/
def requiredCollegeFields : List String :=
  ["name", "location", "website", "contact", "facilities", "departments",
   "courses", "city", "state", "branches"]

/-- The required-field check of `add_college`: every required field whose key
is absent from the body, in order (`field not in data`). -/
def missingCollegeFields (body : Doc) : List String :=
  requiredCollegeFields.filter (fun f => (getField body f).isNone)

/-- The `location` check of `add_college`: a dict containing `latitude`,
`longitude` and `address`. -/
def locationValid (body : Doc) : Bool :=
  let loc := (getField body "location").getD .null
  isObjVal loc && objHasKey loc "latitude" && objHasKey loc "longitude"
    && objHasKey loc "address"

/-- The `contact` check of `add_college`: a dict containing `email` and
`phone`. -/
def contactValid (body : Doc) : Bool :=
  let c := (getField body "contact").getD .null
  isObjVal c && objHasKey c "email" && objHasKey c "phone"

/-- `POST /colleges` (`add_college` in `src/app.py`).  An empty body models a
falsy `request.get_json()` result (`None` or `{}`).  Note that the `except`
block of this one handler replaces the fault message with a fixed text. -/
def addCollege (fault : Option String) (body : Doc) (now : DateTime)
    (s : State) : HResult :=
  if body = [] then
    ⟨errResp 400 "Request must contain JSON data", s, 0⟩
  else if missingCollegeFields body ≠ [] then
    ⟨errResp 400 ("Missing required fields: " ++
      String.intercalate ", " (missingCollegeFields body)), s, 0⟩
  else if ¬ locationValid body then
    ⟨errResp 400 "Invalid location data. Must include latitude, longitude, and address.", s, 0⟩
  else if ¬ contactValid body then
    ⟨errResp 400 "Invalid contact data. Must include email and phone.", s, 0⟩
  else
    match fault with
    | some _ => ⟨errResp 500 "Internal Server Error. Please try again later.", s, 0⟩
    | none =>
      let stamped := setField (setField body "created_at" (.time now)) "updated_at" (.time now)
      let nid := s.colleges.length
      let stored := setField stamped "_id" (.oid nid)
      let respData := setField stamped "_id" (.str (toString nid))
      ⟨⟨201, true, some "College added successfully", none, some respData, none⟩,
       { s with colleges := s.colleges ++ [stored] }, 1⟩

/-- `PUT /colleges/{name}` (`update_college` in `src/app.py`): `$set` of the
whole request body on the first document matching the name. -/
def updateCollege (fault : Option String) (name : String) (body : Doc)
    (s : State) : HResult :=
  match fault with
  | some e => ⟨errResp 500 e, s, 0⟩
  | none =>
    let r := updateFirst s.colleges (fun d => getField d "name" = some (.str name))
      (fun d => setFields d body)
    if r.2 > 0 then
      ⟨okMsg 200 "College updated successfully", { s with colleges := r.1 }, 1⟩
    else
      ⟨msgFail 404 "No changes made or college not found", { s with colleges := r.1 }, 1⟩

/-- The five required fields of `POST /events`. -/
def requiredEventFields : List String :=
  ["college_name", "event_name", "description", "date", "location"]

/-- Insertion part of `add_event`, after validation: stamp the timestamps and
insert. -/
def addEventInsert (fault : Option String) (body : Doc) (now : DateTime)
    (s : State) : HResult :=
  match fault with
  | some e => ⟨errResp 500 e, s, 0⟩
  | none =>
    let stamped := setField (setField body "created_at" (.time now)) "updated_at" (.time now)
    let nid := s.events.length
    let stored := setField stamped "_id" (.oid nid)
    let respData := setField stamped "_id" (.str (toString nid))
    ⟨⟨201, true, some "Event added successfully", none, some respData, none⟩,
     { s with events := s.events ++ [stored] }, 1⟩

/-- `POST /events` (`add_event` in `src/app.py`): the `strptime` call is
wrapped in `except ValueError`, so an unparseable date string is a 400; a
non-string date raises `TypeError`, which only the generic handler catches. -/
def addEvent (fault : Option String) (body : Doc) (now : DateTime)
    (s : State) : HResult :=
  if ¬ requiredEventFields.all (fun f => (getField body f).isSome) then
    ⟨errResp 400 "Missing required fields", s, 0⟩
  else
    match getField body "date" with
    | some (.str ds) =>
      match parseYMD ds with
      | none => ⟨errResp 400 "Invalid date format", s, 0⟩
      | some dt => addEventInsert fault (setField body "date" (.time dt)) now s
    | some v => ⟨errResp 500 (strptimeTypeErr (pyTypeName v)), s, 0⟩
    | none => ⟨errResp 400 "Missing required fields", s, 0⟩

/-- Update part of `update_event`, after the date conversion: stamp
`updated_at` unconditionally and `$set` the body on the event matching the
id. -/
def updateEventApply (fault : Option String) (eventId : Nat) (body : Doc)
    (now : DateTime) (s : State) : HResult :=
  let u := setField body "updated_at" (.time now)
  match fault with
  | some e => ⟨errResp 500 e, s, 0⟩
  | none =>
    let r := updateFirst s.events (fun d => getField d "_id" = some (.oid eventId))
      (fun d => setFields d u)
    if r.2 > 0 then
      ⟨okMsg 200 "Event updated successfully", { s with events := r.1 }, 1⟩
    else
      ⟨msgFail 404 "No changes made or event not found", { s with events := r.1 }, 1⟩

/-- `PUT /events/{event_id}` (`update_event` in `src/app.py`).  The `strptime`
call is NOT wrapped in `except ValueError` here, so an unparseable `date`
string raises a `ValueError` that only the generic `except Exception` catches,
producing a 500 with the `ValueError` message. -/
def updateEvent (fault : Option String) (eventId : Nat) (body : Doc)
    (now : DateTime) (s : State) : HResult :=
  match getField body "date" with
  | some (.str ds) =>
    match parseTS ds with
    | none => ⟨errResp 500 (strptimeErr ds "%Y-%m-%dT%H:%M:%SZ"), s, 0⟩
    | some dt => updateEventApply fault eventId (setField body "date" (.time dt)) now s
  | some v => ⟨errResp 500 (strptimeTypeErr (pyTypeName v)), s, 0⟩
  | none => updateEventApply fault eventId body now s

/-- `DELETE /events/{event_id}` (`delete_event` in `src/app.py`). -/
def deleteEvent (fault : Option String) (eventId : Nat) (s : State) : HResult :=
  match fault with
  | some e => ⟨errResp 500 e, s, 0⟩
  | none =>
    let r := deleteFirst s.events (fun d => getField d "_id" = some (.oid eventId))
    if r.2 > 0 then
      ⟨okMsg 200 "Event deleted successfully", { s with events := r.1 }, 1⟩
    else
      ⟨msgFail 404 "Event not found", { s with events := r.1 }, 1⟩

/-- `POST /colleges/{college_name}/rate` (`rate_college` in `src/app.py`). -/
def rateCollege (fault : Option String) (collegeName : String) (body : Doc)
    (now : DateTime) (s : State) : HResult :=
  if ¬ (["user_email", "rating", "message"].all (fun f => (getField body f).isSome)) then
    ⟨errResp 400 "Missing required fields", s, 0⟩
  else
    match fault with
    | some e => ⟨errResp 500 e, s, 0⟩
    | none =>
      let ue := (getField body "user_email").getD .null
      match findOne s.users "email" ue with
      | none => ⟨errResp 403 "Invalid user", s, 0⟩
      | some user =>
        match findOne s.colleges "name" (.str collegeName) with
        | none => ⟨errResp 404 "College not found", s, 0⟩
        | some _ =>
          let review : Doc :=
            [("user_id", idToStr (getField user "_id")),
             ("user_email", ue),
             ("rating", (getField body "rating").getD .null),
             ("message", (getField body "message").getD .null),
             ("timestamp", .time now)]
          let r := updateFirst s.colleges
            (fun d => getField d "name" = some (.str collegeName))
            (fun d => pushField d "reviews" (jobj review))
          ⟨okMsg 201 "Review added successfully", { s with colleges := r.1 }, 1⟩

/-- Zero-padded two-digit decimal rendering. -/
def pad2 (n : Nat) : String :=
  if n < 10 then "0" ++ toString n else toString n

/-- Zero-padded four-digit decimal rendering. -/
def pad4 (n : Nat) : String :=
  if n < 10 then "000" ++ toString n
  else if n < 100 then "00" ++ toString n
  else if n < 1000 then "0" ++ toString n
  else toString n

/-- `datetime.isoformat()` of a whole-second instant. -/
def isoFormat (t : DateTime) : String :=
  pad4 t.year ++ "-" ++ pad2 t.month ++ "-" ++ pad2 t.day ++ "T" ++
    pad2 t.hour ++ ":" ++ pad2 t.minute ++ ":" ++ pad2 t.second

/-- Replace field `k` by its ISO-8601 text when it holds a datetime
(`if k in event and isinstance(event[k], datetime)` in `get_events`). -/
def isoField (d : Doc) (k : String) : Doc :=
  match getField d k with
  | some (.time t) => setField d k (.str (isoFormat t))
  | _ => d

/-- The id stringification (`doc["_id"] = str(doc["_id"])`) the listing and
lookup routes perform on each returned document. -/
def renderId (d : Doc) : Doc :=
  setField d "_id" (idToStr (getField d "_id"))

/-- The per-event rendering of `get_events`: stringify the id, then render
`date`, `created_at` and `updated_at` as ISO-8601 text when they hold
datetimes. -/
def renderEvent (d : Doc) : Doc :=
  isoField (isoField (isoField (renderId d) "date") "created_at") "updated_at"

/-- `GET /users/{email}` (`get_user` in `src/app.py`). -/
def getUser (fault : Option String) (email : String) (s : State) : HResult :=
  match fault with
  | some e => ⟨errResp 500 e, s, 0⟩
  | none =>
    match findOne s.users "email" (.str email) with
    | some user => ⟨⟨200, true, none, none, some (renderId user), none⟩, s, 0⟩
    | none => ⟨msgFail 404 "User not found", s, 0⟩

/-- `GET /colleges` (`get_colleges` in `src/app.py`). -/
def getColleges (fault : Option String) (s : State) : HResult :=
  match fault with
  | some e => ⟨errResp 500 e, s, 0⟩
  | none => ⟨okList 200 (s.colleges.map renderId), s, 0⟩

/-- `DELETE /colleges/{name}` (`delete_college` in `src/app.py`). -/
def deleteCollege (fault : Option String) (name : String) (s : State) : HResult :=
  match fault with
  | some e => ⟨errResp 500 e, s, 0⟩
  | none =>
    let r := deleteFirst s.colleges (fun d => getField d "name" = some (.str name))
    if r.2 > 0 then
      ⟨okMsg 200 "College deleted successfully", { s with colleges := r.1 }, 1⟩
    else
      ⟨msgFail 404 "College not found", { s with colleges := r.1 }, 1⟩

/-- `GET /events` (`get_events` in `src/app.py`). -/
def getEvents (fault : Option String) (s : State) : HResult :=
  match fault with
  | some e => ⟨errResp 500 e, s, 0⟩
  | none => ⟨okList 200 (s.events.map renderEvent), s, 0⟩

/-- `GET /map-data` (`get_map_data` in `src/app.py`). -/
def getMapData (fault : Option String) (s : State) : HResult :=
  match fault with
  | some e => ⟨errResp 500 e, s, 0⟩
  | none => ⟨okList 200 (s.facilities.map renderId), s, 0⟩

/-- The reviews list of a college document. -/
def reviewsOf (d : Doc) : List JVal :=
  jvalElems ((getField d "reviews").getD .anil)

/-! ## Concrete fixtures used by witnesses and counterexamples -/

/-- A sample clock value. -/
def t0 : DateTime := ⟨2024, 1, 1, 10, 0, 0⟩

/-- A later clock value. -/
def t1 : DateTime := ⟨2024, 6, 2, 11, 30, 0⟩

/-- A registered user, as the login handler would have stored it at `t0`. -/
def user0 : Doc :=
  [("google_id", .str "g1"), ("name", .str "Ada"), ("email", .str "ada@x.io"),
   ("profile_picture", .null), ("role", .str "student"),
   ("last_login", .time t0), ("created_at", .time t0), ("_id", .oid 0)]

/-- A stored review entry. -/
def review0 : JVal :=
  jobj [("user_id", .str "0"), ("user_email", .str "ada@x.io"),
        ("rating", .num 5), ("message", .str "good"), ("timestamp", .time t0)]

/-- A stored college named `"A"` carrying one review. -/
def college0 : Doc :=
  [("name", .str "A"), ("city", .str "Delhi"), ("created_at", .time t0),
   ("updated_at", .time t0), ("reviews", .acons review0 .anil), ("_id", .oid 0)]

/-- A stored event with id `0`. -/
def event0 : Doc :=
  [("college_name", .str "A"), ("event_name", .str "fest"),
   ("description", .str "d"), ("date", .time t0), ("location", .str "hall"),
   ("created_at", .time t0), ("updated_at", .time t0), ("_id", .oid 0)]

/-- A store holding `user0`, `college0` and `event0`, and no facility
records. -/
def st0 : State := ⟨[user0], [college0], [event0], []⟩

/-- A store with no registered users. -/
def stEmpty : State := ⟨[], [college0], [event0], []⟩

/-- A college-create body with all ten required fields present and valid
nested `location` / `contact` objects. -/
def collegeBody : Doc :=
  [("name", .str "B"),
   ("location", .ocons "latitude" (.num 13) (.ocons "longitude" (.num 77)
      (.ocons "address" (.str "road") .onil))),
   ("website", .str "b.io"),
   ("contact", .ocons "email" (.str "b@b.io") (.ocons "phone" (.str "123") .onil)),
   ("facilities", .anil), ("departments", .anil), ("courses", .anil),
   ("city", .str "Blr"), ("state", .str "KA"), ("branches", .anil)]

/-- `collegeBody` with the required field `name` removed and `longitude`
dropped from `location`: both the missing-field check and the location check
reject it, and the code reports the missing field, not the location error. -/
def collegeBodyNoNameNoLong : Doc :=
  [("location", .ocons "latitude" (.num 13) (.ocons "address" (.str "road") .onil)),
   ("website", .str "b.io"),
   ("contact", .ocons "email" (.str "b@b.io") (.ocons "phone" (.str "123") .onil)),
   ("facilities", .anil), ("departments", .anil), ("courses", .anil),
   ("city", .str "Blr"), ("state", .str "KA"), ("branches", .anil)]

/-- A valid event-create body. -/
def eventBody : Doc :=
  [("college_name", .str "A"), ("event_name", .str "expo"),
   ("description", .str "d"), ("date", .str "2024-03-05"),
   ("location", .str "hall")]

/-- A valid review body from the registered user. -/
def rateBody : Doc :=
  [("user_email", .str "ada@x.io"), ("rating", .num 4), ("message", .str "ok")]

/-- The tokeninfo response body for a verified subject. -/
def tokenInfo : Doc :=
  [("sub", .str "g1"), ("name", .str "Ada"), ("email", .str "ada@x.io"),
   ("picture", .null)]

/-- A login request body carrying a credential. -/
def loginBody : Doc := [("credential", .str "tok")]

/-! ## Basic lemmas about documents and store operations -/

theorem getField_setField_self (d : Doc) (k : String) (v : JVal) :
    getField (setField d k v) k = some v := by
  induction d with
  | nil => simp [setField, getField]
  | cons hd tl ih =>
    obtain ⟨k₀, v₀⟩ := hd
    by_cases h : k₀ = k
    · simp [setField, getField, h]
    · simp [setField, getField, h, ih]

theorem getField_setField_ne (d : Doc) (k₀ k : String) (v : JVal) (h : k₀ ≠ k) :
    getField (setField d k₀ v) k = getField d k := by
  induction d with
  | nil => simp [setField, getField, h]
  | cons hd tl ih =>
    obtain ⟨k₁, v₁⟩ := hd
    by_cases h₁ : k₁ = k₀
    · subst h₁
      simp [setField, getField, h]
    · by_cases h₂ : k₁ = k
      · subst h₂
        simp [setField, getField, h₁]
      · simp [setField, getField, h₁, h₂, ih]

theorem getField_setFields_not_mem (u : Doc) (d : Doc) (k : String)
    (h : k ∉ u.map Prod.fst) :
    getField (setFields d u) k = getField d k := by
  induction u generalizing d with
  | nil => simp [setFields]
  | cons hd tl ih =>
    obtain ⟨k₀, v₀⟩ := hd
    simp only [List.map_cons, List.mem_cons, not_or] at h
    rw [setFields, ih _ h.2, getField_setField_ne _ _ _ _ (fun hh => h.1 hh.symm)]

theorem keys_setField (d : Doc) (k : String) (v : JVal) :
    (setField d k v).map Prod.fst =
      if k ∈ d.map Prod.fst then d.map Prod.fst else d.map Prod.fst ++ [k] := by
  induction d with
  | nil => simp [setField]
  | cons hd tl ih =>
    obtain ⟨k₀, v₀⟩ := hd
    by_cases h : k₀ = k
    · simp [setField, h]
    · by_cases h₂ : k ∈ tl.map Prod.fst
      · simp [setField, h, h₂, Ne.symm h, ih]
      · simp [setField, h, h₂, Ne.symm h, ih]

theorem nodup_keys_setField (d : Doc) (k : String) (v : JVal)
    (h : (d.map Prod.fst).Nodup) : ((setField d k v).map Prod.fst).Nodup := by
  rw [keys_setField]
  by_cases hm : k ∈ d.map Prod.fst
  · simpa [hm] using h
  · simp only [hm, if_false]
    rw [List.nodup_append]
    exact ⟨h, List.nodup_singleton k, fun a ha hb => by
      simp only [List.mem_singleton] at hb
      exact hm (hb ▸ ha)⟩

theorem getField_setFields_mem (u : Doc) (d : Doc) (k : String) (v : JVal)
    (hnd : (u.map Prod.fst).Nodup) (h : getField u k = some v) :
    getField (setFields d u) k = some v := by
  induction u generalizing d with
  | nil => simp [getField] at h
  | cons hd tl ih =>
    obtain ⟨k₀, v₀⟩ := hd
    simp only [List.map_cons, List.nodup_cons] at hnd
    by_cases hk : k₀ = k
    · subst hk
      simp [getField] at h
      rw [setFields, getField_setFields_not_mem _ _ _ hnd.1,
        getField_setField_self, h]
    · simp only [getField, if_neg hk] at h
      rw [setFields]
      exact ih (setField d k₀ v₀) hnd.2 h

theorem jvalElems_arrAppend (a r : JVal) :
    jvalElems (arrAppend a r) = jvalElems a ++ [r] := by
  induction a <;> simp [arrAppend, jvalElems, *]

theorem reviewsOf_pushField (d : Doc) (r : JVal) :
    reviewsOf d <+: reviewsOf (pushField d "reviews" r) := by
  unfold reviewsOf pushField
  cases h : getField d "reviews" with
  | none => simp [h, getField_setField_self, jvalElems]
  | some v =>
    by_cases ha : isArrVal v
    · simp only [h, ha, if_pos, Option.getD_some, getField_setField_self,
        jvalElems_arrAppend]
      exact List.prefix_append _ _
    · simp [h, ha]

theorem find?_eq_some_decomp {α : Type} (l : List α) (p : α → Bool) (u : α)
    (h : l.find? p = some u) :
    ∃ l₁ l₂, l = l₁ ++ u :: l₂ ∧ (∀ x ∈ l₁, p x = false) ∧ p u = true := by
  induction l with
  | nil => simp [List.find?] at h
  | cons d tl ih =>
    by_cases hp : p d
    · rw [List.find?_cons_of_pos _ hp] at h
      injection h with h
      exact ⟨[], tl, by simp [h], by simp, h ▸ hp⟩
    · rw [List.find?_cons_of_neg _ (by simpa using hp)] at h
      obtain ⟨l₁, l₂, rfl, h₁, h₂⟩ := ih h
      refine ⟨d :: l₁, l₂, rfl, ?_, h₂⟩
      intro x hx
      rcases List.mem_cons.mp hx with rfl | hx
      · simpa using hp
      · exact h₁ x hx

theorem find?_append_cons {α : Type} (l₁ l₂ : List α) (u : α) (p : α → Bool)
    (h₁ : ∀ x ∈ l₁, p x = false) (h₂ : p u = true) :
    (l₁ ++ u :: l₂).find? p = some u := by
  induction l₁ with
  | nil => simp [List.find?_cons, h₂]
  | cons d tl ih =>
    rw [List.cons_append, List.find?_cons_of_neg _ (by simp [h₁ d (by simp)])]
    exact ih (fun x hx => h₁ x (by simp [hx]))

theorem updateFirst_decomp (l₁ l₂ : List Doc) (u : Doc) (p : Doc → Bool)
    (f : Doc → Doc) (h₁ : ∀ x ∈ l₁, p x = false) (h₂ : p u = true) :
    updateFirst (l₁ ++ u :: l₂) p f =
      (l₁ ++ f u :: l₂, if f u = u then 0 else 1) := by
  induction l₁ with
  | nil => simp [updateFirst, h₂]
  | cons d tl ih =>
    rw [List.cons_append, updateFirst]
    simp only [h₁ d (by simp), Bool.false_eq_true, if_false]
    rw [ih (fun x hx => h₁ x (by simp [hx]))]
    simp

theorem updateFirst_map {β : Type} (l : List Doc) (p : Doc → Bool)
    (f : Doc → Doc) (g : Doc → β) (h : ∀ d, g (f d) = g d) :
    (updateFirst l p f).1.map g = l.map g := by
  induction l with
  | nil => simp [updateFirst]
  | cons d tl ih =>
    by_cases hp : p d
    · simp [updateFirst, hp, h d]
    · simp [updateFirst, hp, ih]

theorem updateFirst_forall₂ (l : List Doc) (p : Doc → Bool) (f : Doc → Doc)
    (R : Doc → Doc → Prop) (hrefl : ∀ d, R d d) (hf : ∀ d, R d (f d)) :
    List.Forall₂ R l (updateFirst l p f).1 := by
  induction l with
  | nil => simp [updateFirst]
  | cons d tl ih =>
    by_cases hp : p d
    · simp only [updateFirst, hp, if_pos]
      exact List.Forall₂.cons (hf d) (List.forall₂_same.mpr fun x _ => hrefl x)
    · simp only [updateFirst, hp, Bool.false_eq_true, if_false]
      exact List.Forall₂.cons (hrefl d) ih

theorem updateFirst_length (l : List Doc) (p : Doc → Bool) (f : Doc → Doc) :
    (updateFirst l p f).1.length = l.length :=
  ((updateFirst_forall₂ l p f (fun _ _ => True) (fun _ => trivial)
    (fun _ => trivial)).length_eq).symm

/-! ## Reduction lemmas for the handlers -/

theorem updateCollege_state (n : String) (body : Doc) (s : State) :
    (updateCollege none n body s).state =
      { s with colleges := (updateFirst s.colleges
          (fun d => getField d "name" = some (.str n))
          (fun d => setFields d body)).1 } := by
  simp only [updateCollege]
  split <;> rfl

theorem updateEventApply_state (i : Nat) (body : Doc) (now : DateTime) (s : State) :
    (updateEventApply none i body now s).state =
      { s with events := (updateFirst s.events
          (fun d => getField d "_id" = some (.oid i))
          (fun d => setFields d (setField body "updated_at" (.time now)))).1 } := by
  simp only [updateEventApply]
  split <;> rfl

theorem googleLogin_found (body info : Doc) (now : DateTime) (s : State) (u : Doc)
    (htok : jTruthy ((getField body "credential").getD .null) = true)
    (h : findOne s.users "email" ((getField info "email").getD .null) = some u) :
    googleLogin none body 200 info now s =
      ⟨⟨200, true, some "User logged in", none,
        some (setField u "_id" (idToStr (getField u "_id"))), none⟩,
       { s with users := (updateFirst s.users
          (fun d => getField d "email" = some ((getField info "email").getD .null))
          (fun d => setFields d [("last_login", .time now)])).1 }, 1⟩ := by
  simp only [googleLogin, htok, h]
  simp

theorem googleLogin_notFound (body info : Doc) (now : DateTime) (s : State)
    (htok : jTruthy ((getField body "credential").getD .null) = true)
    (h : findOne s.users "email" ((getField info "email").getD .null) = none) :
    googleLogin none body 200 info now s =
      ⟨⟨201, true, some "New user registered", none,
        some (setField
          [("google_id", (getField info "sub").getD .null),
           ("name", (getField info "name").getD .null),
           ("email", (getField info "email").getD .null),
           ("profile_picture", (getField info "picture").getD .null),
           ("role", .str "student"),
           ("last_login", .time now),
           ("created_at", .time now)] "_id" (.str (toString s.users.length))), none⟩,
       { s with users := s.users ++
          [setField
            [("google_id", (getField info "sub").getD .null),
             ("name", (getField info "name").getD .null),
             ("email", (getField info "email").getD .null),
             ("profile_picture", (getField info "picture").getD .null),
             ("role", .str "student"),
             ("last_login", .time now),
             ("created_at", .time now)] "_id" (.oid s.users.length)]}, 1⟩ := by
  simp only [googleLogin, htok, h]
  simp

/-! ## Claim C3 -/

/-- C3 (code bug): the spec says an event-update `date` that fails to parse as
`YYYY-MM-DDTHH:MM:SSZ` is rejected with the 400-class `ValidationError`, but
in `update_event` the `strptime` call is not wrapped in `except ValueError`
(unlike `add_event`), so the `ValueError` falls through to the generic
`except Exception` handler and the call answers 500 with the raw `ValueError`
text.  The store is unchanged, as the claim says.  For contrast, the same kind
of malformed date at event creation is answered with the 400 date-specific
error. -/
theorem C3_update_event_bad_date_is_500 :
    updateEvent none 0 [("date", .str "2024-01-15")] t1 st0 =
      ⟨errResp 500 (strptimeErr "2024-01-15" "%Y-%m-%dT%H:%M:%SZ"), st0, 0⟩
    ∧ (updateEvent none 0 [("date", .str "2024-01-15")] t1 st0).resp.status ≠ 400
    ∧ addEvent none (setField eventBody "date" (.str "2024-13-40")) t1 st0 =
      ⟨errResp 400 "Invalid date format", st0, 0⟩ := by
  refine ⟨by decide, by decide, by decide⟩

/-! ## Claim C4 -/

/-- C4 (counterexample): a login request whose body lacks the `credential`
token is answered with status 400, not with the 401 `InvalidCredential`
class the claim asserts for both failure modes. -/
theorem C4_cex :
    (googleLogin none [("otherfield", .num 1)] 200 tokenInfo t0 st0).resp.status = 400
    ∧ (googleLogin none [("otherfield", .num 1)] 200 tokenInfo t0 st0).resp.status ≠ 401
    ∧ (googleLogin none [("otherfield", .num 1)] 200 tokenInfo t0 st0).resp.error =
        some "Missing Google token" := by
  refine ⟨by decide, by decide, by decide⟩

/-- C4 (amended): an absent (or falsy) credential token is answered with the
400-class validation error "Missing Google token", while a non-success
identity-verification exchange is answered with the 401 `InvalidCredential`
error "Invalid Google Token"; in both cases the store is unchanged and no
user record is written. -/
theorem C4_amended (body info : Doc) (gs : Nat) (now : DateTime) (s : State) :
    (¬ jTruthy ((getField body "credential").getD .null) →
      googleLogin none body gs info now s = ⟨errResp 400 "Missing Google token", s, 0⟩)
    ∧ (jTruthy ((getField body "credential").getD .null) → gs ≠ 200 →
      googleLogin none body gs info now s = ⟨errResp 401 "Invalid Google Token", s, 0⟩) := by
  constructor
  · intro h
    simp [googleLogin, h]
  · intro h hgs
    simp [googleLogin, h, hgs]

/-- Witness for `C4_amended`: both failure modes at concrete inputs. -/
theorem C4_amended_witness :
    googleLogin none [("otherfield", .num 1)] 200 tokenInfo t0 st0 =
      ⟨errResp 400 "Missing Google token", st0, 0⟩
    ∧ googleLogin none loginBody 500 tokenInfo t0 st0 =
      ⟨errResp 401 "Invalid Google Token", st0, 0⟩ :=
  ⟨(C4_amended [("otherfield", .num 1)] tokenInfo 200 t0 st0).1 (by decide),
   (C4_amended loginBody tokenInfo 500 t0 st0).2 (by decide) (by decide)⟩

/-! ## Claim C2 -/

/-- C2 (counterexample): a create request whose `location` mapping lacks
`longitude` but whose `name` field is also absent is answered with the
missing-field error naming `name`, NOT with the location-specific error: the
missing-field check runs first, so the location error is not independent of
the other nine fields being present. -/
theorem C2_cex :
    (addCollege none collegeBodyNoNameNoLong t0 st0).resp =
      errResp 400 "Missing required fields: name"
    ∧ (addCollege none collegeBodyNoNameNoLong t0 st0).resp.error ≠
      some "Invalid location data. Must include latitude, longitude, and address." := by
  refine ⟨by decide, by decide⟩

/-- C2 (amended): for a college-create request whose body is a nonempty JSON
object, if any of the ten required top-level fields are missing the operation
fails with a `ValidationError` naming every missing field at once (the error
lists exactly the required fields absent from the body); if all ten are
present and the `location` mapping lacks `longitude` (or `latitude` or
`address`), the operation fails with the location-specific `ValidationError`.
When a required field is missing, the missing-field error takes precedence
over the location-specific one. -/
theorem C2_amended (body : Doc) (now : DateTime) (s : State) (hne : body ≠ []) :
    (∀ f, f ∈ missingCollegeFields body ↔
      f ∈ requiredCollegeFields ∧ getField body f = none)
    ∧ (missingCollegeFields body ≠ [] →
        addCollege none body now s = ⟨errResp 400 ("Missing required fields: " ++
          String.intercalate ", " (missingCollegeFields body)), s, 0⟩)
    ∧ (missingCollegeFields body = [] → ¬ locationValid body →
        addCollege none body now s =
          ⟨errResp 400 "Invalid location data. Must include latitude, longitude, and address.",
           s, 0⟩) := by
  refine ⟨?_, ?_, ?_⟩
  · intro f
    simp [missingCollegeFields, List.mem_filter, Option.isNone_iff_eq_none]
  · intro h
    simp [addCollege, hne, h]
  · intro h hloc
    simp [addCollege, hne, h, hloc]

/-- Witness for `C2_amended`: a body missing only `name` is rejected naming
`name`; the same body with `name` restored (location still lacking
`longitude`) is rejected with the location-specific error. -/
theorem C2_amended_witness :
    addCollege none collegeBodyNoNameNoLong t0 st0 =
      ⟨errResp 400 "Missing required fields: name", st0, 0⟩
    ∧ addCollege none (("name", JVal.str "B") :: collegeBodyNoNameNoLong) t0 st0 =
      ⟨errResp 400 "Invalid location data. Must include latitude, longitude, and address.",
       st0, 0⟩ := by
  constructor
  · have h := (C2_amended collegeBodyNoNameNoLong t0 st0 (by decide)).2.1 (by decide)
    rw [h]
    decide
  · exact (C2_amended (("name", JVal.str "B") :: collegeBodyNoNameNoLong) t0 st0
      (by decide)).2.2 (by decide) (by decide)

/-! ## Claim C7 -/

/-- C7 (confirmed): with all three required review fields present, an unknown
`user_email` is answered `403 Forbidden` ("Invalid user") with the store
unchanged and no mutation — independently of whether the college exists, so
the user check precedes the college check; a known user rating a college name
that resolves to no document is answered `404 NotFound` ("College not found"),
store unchanged. -/
theorem C7_rate_auth_order (cn : String) (body : Doc) (now : DateTime) (s : State)
    (hf : (["user_email", "rating", "message"].all
      (fun f => (getField body f).isSome)) = true) :
    (findOne s.users "email" ((getField body "user_email").getD .null) = none →
      rateCollege none cn body now s = ⟨errResp 403 "Invalid user", s, 0⟩)
    ∧ (∀ u, findOne s.users "email" ((getField body "user_email").getD .null) = some u →
      findOne s.colleges "name" (.str cn) = none →
      rateCollege none cn body now s = ⟨errResp 404 "College not found", s, 0⟩) := by
  constructor
  · intro h
    simp [rateCollege, hf, h]
  · intro u hu hc
    simp [rateCollege, hf, hu, hc]

/-- Witness for `C7_rate_auth_order`: an unknown email on an existing college
gets 403, and the known user on an unknown college gets 404. -/
theorem C7_rate_auth_order_witness :
    rateCollege none "A"
      [("user_email", .str "ghost@x.io"), ("rating", .num 1), ("message", .str "m")]
      t1 st0 = ⟨errResp 403 "Invalid user", st0, 0⟩
    ∧ rateCollege none "Zed" rateBody t1 st0 =
      ⟨errResp 404 "College not found", st0, 0⟩ :=
  ⟨(C7_rate_auth_order "A"
      [("user_email", .str "ghost@x.io"), ("rating", .num 1), ("message", .str "m")]
      t1 st0 (by decide)).1 (by decide),
   (C7_rate_auth_order "Zed" rateBody t1 st0 (by decide)).2 user0 (by decide) (by decide)⟩

/-! ## Claim C5 -/

/-- C5 (counterexample): when an internal fault with message "boom" occurs in
the college-create operation, the caller receives the fixed text
"Internal Server Error. Please try again later.", not the fault's own message
— contradicting the claim that every operation surfaces the fault text
unmodified. -/
theorem C5_cex :
    (addCollege (some "boom") collegeBody t0 st0).resp.status = 500
    ∧ (addCollege (some "boom") collegeBody t0 st0).resp.error =
        some "Internal Server Error. Please try again later."
    ∧ (addCollege (some "boom") collegeBody t0 st0).resp.error ≠ some "boom" := by
  refine ⟨by decide, by decide, by decide⟩

/-- C5 (amended): every one of the twelve operations of the surface catches
an internal fault at its boundary and converts it to a 500 `InternalError`
with the store unchanged; every operation except college-create surfaces the
fault's own message text unmodified, while college-create replaces it with
the fixed text "Internal Server Error. Please try again later.". -/
theorem C5_amended (e : String) (lb info ub eb ab rb cb : Doc)
    (n n₂ cn em : String) (i : Nat) (nw₁ nw₂ nw₃ nw₄ : DateTime) (s : State)
    (ds : String) (dt : DateTime) :
    (jTruthy ((getField lb "credential").getD .null) →
      googleLogin (some e) lb 200 info nw₁ s = ⟨errResp 500 e, s, 0⟩)
    ∧ updateCollege (some e) n ub s = ⟨errResp 500 e, s, 0⟩
    ∧ (getField eb "date" = none →
        updateEvent (some e) i eb nw₂ s = ⟨errResp 500 e, s, 0⟩)
    ∧ deleteEvent (some e) i s = ⟨errResp 500 e, s, 0⟩
    ∧ deleteCollege (some e) n₂ s = ⟨errResp 500 e, s, 0⟩
    ∧ getUser (some e) em s = ⟨errResp 500 e, s, 0⟩
    ∧ getColleges (some e) s = ⟨errResp 500 e, s, 0⟩
    ∧ getEvents (some e) s = ⟨errResp 500 e, s, 0⟩
    ∧ getMapData (some e) s = ⟨errResp 500 e, s, 0⟩
    ∧ (requiredEventFields.all (fun f => (getField ab f).isSome) = true →
        getField ab "date" = some (.str ds) → parseYMD ds = some dt →
        addEvent (some e) ab nw₃ s = ⟨errResp 500 e, s, 0⟩)
    ∧ ((["user_email", "rating", "message"].all
          (fun f => (getField rb f).isSome)) = true →
        rateCollege (some e) cn rb nw₄ s = ⟨errResp 500 e, s, 0⟩)
    ∧ (cb ≠ [] → missingCollegeFields cb = [] → locationValid cb = true →
        contactValid cb = true →
        addCollege (some e) cb nw₁ s =
          ⟨errResp 500 "Internal Server Error. Please try again later.", s, 0⟩) := by
  refine ⟨?_, ?_, ?_, ?_, ?_, ?_, ?_, ?_, ?_, ?_, ?_, ?_⟩
  · intro h
    simp [googleLogin, h]
  · simp [updateCollege]
  · intro h
    simp [updateEvent, h, updateEventApply]
  · simp [deleteEvent]
  · simp [deleteCollege]
  · simp [getUser]
  · simp [getColleges]
  · simp [getEvents]
  · simp [getMapData]
  · intro h₁ h₂ h₃
    simp [addEvent, h₁, h₂, h₃, addEventInsert]
  · intro h
    simp [rateCollege, h]
  · intro h₁ h₂ h₃ h₄
    simp [addCollege, h₁, h₂, h₃, h₄]

/-- Witness for `C5_amended`: all twelve operations at concrete inputs with
an injected fault "db down". -/
theorem C5_amended_witness :
    googleLogin (some "db down") loginBody 200 tokenInfo t1 st0 =
      ⟨errResp 500 "db down", st0, 0⟩
    ∧ updateCollege (some "db down") "A" [("city", .str "X")] st0 =
      ⟨errResp 500 "db down", st0, 0⟩
    ∧ updateEvent (some "db down") 0 [("location", .str "lab")] t1 st0 =
      ⟨errResp 500 "db down", st0, 0⟩
    ∧ deleteEvent (some "db down") 0 st0 = ⟨errResp 500 "db down", st0, 0⟩
    ∧ deleteCollege (some "db down") "A" st0 = ⟨errResp 500 "db down", st0, 0⟩
    ∧ getUser (some "db down") "ada@x.io" st0 = ⟨errResp 500 "db down", st0, 0⟩
    ∧ getColleges (some "db down") st0 = ⟨errResp 500 "db down", st0, 0⟩
    ∧ getEvents (some "db down") st0 = ⟨errResp 500 "db down", st0, 0⟩
    ∧ getMapData (some "db down") st0 = ⟨errResp 500 "db down", st0, 0⟩
    ∧ addEvent (some "db down") eventBody t1 st0 = ⟨errResp 500 "db down", st0, 0⟩
    ∧ rateCollege (some "db down") "A" rateBody t1 st0 =
      ⟨errResp 500 "db down", st0, 0⟩
    ∧ addCollege (some "db down") collegeBody t1 st0 =
      ⟨errResp 500 "Internal Server Error. Please try again later.", st0, 0⟩ :=
  have h := C5_amended "db down" loginBody tokenInfo [("city", .str "X")]
    [("location", .str "lab")] eventBody rateBody collegeBody "A" "A" "A" "ada@x.io"
    0 t1 t1 t1 t1 st0 "2024-03-05" ⟨2024, 3, 5, 0, 0, 0⟩
  ⟨h.1 (by decide), h.2.1, h.2.2.1 (by decide), h.2.2.2.1, h.2.2.2.2.1,
   h.2.2.2.2.2.1, h.2.2.2.2.2.2.1, h.2.2.2.2.2.2.2.1, h.2.2.2.2.2.2.2.2.1,
   h.2.2.2.2.2.2.2.2.2.1 (by decide) (by decide) (by decide),
   h.2.2.2.2.2.2.2.2.2.2.1 (by decide),
   h.2.2.2.2.2.2.2.2.2.2.2 (by decide) (by decide) (by decide) (by decide)⟩

/-! ## Claim C1 -/

/-- C1 (counterexample): a college update whose body carries a `reviews` key
replaces the whole embedded review list (`$set` semantics), removing the
existing entry — and even reports success.  So not every college-update
preserves existing review entries. -/
theorem C1_cex :
    reviewsOf college0 = [review0]
    ∧ (updateCollege none "A" [("reviews", JVal.anil)] st0).resp.status = 200
    ∧ reviewsOf
        (((updateCollege none "A" [("reviews", JVal.anil)] st0).state.colleges).headD [])
      = [] := by
  refine ⟨by decide, by decide, by decide⟩

/-- C1 (amended): existing review entries are never removed or mutated by
college create, event create/update/delete, or review intake; a college
update also preserves every college's `reviews` field PROVIDED its request
body does not itself carry a `reviews` key (a body carrying `reviews`
overwrites the list wholesale).  Review intake only ever appends at the end:
after it, every college's old review list is a prefix of its new one. -/
theorem C1_amended (fu fc fe₁ fe₂ fe₃ fr : Option String) (n cn : String)
    (ub ab eb ub₂ rb : Doc) (i : Nat) (nw₁ nw₂ nw₃ nw₄ : DateTime) (s : State) :
    ("reviews" ∉ ub.map Prod.fst →
      (updateCollege fu n ub s).state.colleges.map (fun d => getField d "reviews")
        = s.colleges.map (fun d => getField d "reviews"))
    ∧ s.colleges <+: (addCollege fc ab nw₁ s).state.colleges
    ∧ (addEvent fe₁ eb nw₂ s).state.colleges = s.colleges
    ∧ (updateEvent fe₂ i ub₂ nw₃ s).state.colleges = s.colleges
    ∧ (deleteEvent fe₃ i s).state.colleges = s.colleges
    ∧ List.Forall₂ (fun d d₂ => reviewsOf d <+: reviewsOf d₂)
        s.colleges (rateCollege fr cn rb nw₄ s).state.colleges := by
  refine ⟨?_, ?_, ?_, ?_, ?_, ?_⟩
  · intro h
    cases fu with
    | some e => simp [updateCollege]
    | none =>
      rw [updateCollege_state]
      exact updateFirst_map _ _ _ _ (fun d => getField_setFields_not_mem ub d _ h)
  · simp only [addCollege]
    repeat' split
    all_goals simp [List.prefix_append, List.prefix_rfl]
  · simp only [addEvent, addEventInsert]
    repeat' split
    all_goals rfl
  · simp only [updateEvent, updateEventApply]
    repeat' split
    all_goals rfl
  · simp only [deleteEvent]
    repeat' split
    all_goals rfl
  · simp only [rateCollege]
    repeat' split
    all_goals first
      | exact List.forall₂_same.mpr (fun x _ => List.prefix_rfl)
      | exact updateFirst_forall₂ _ _ _ _ (fun d => List.prefix_rfl)
          (fun d => reviewsOf_pushField d _)

/-- Witness for `C1_amended`: a college update not mentioning `reviews`
leaves every college's review list untouched. -/
theorem C1_amended_witness :
    (updateCollege none "A" [("city", JVal.str "X")] st0).state.colleges.map
        (fun d => getField d "reviews")
      = st0.colleges.map (fun d => getField d "reviews") :=
  (C1_amended none none none none none none "A" "A" [("city", JVal.str "X")]
    [] [] [] [] 0 t1 t1 t1 t1 st0).1 (by decide)

/-! ## Claim C8 -/

/-- C8 (confirmed): a college update on an existing college (the first
document matching the name) merges only the supplied fields: the updated
document keeps the previous value of every field whose key is absent from the
request body — in particular `created_at` and `reviews` when unmentioned —
and holds the request's value for every supplied field.  All other documents
are untouched.  (`body` is a parsed JSON object, so its keys are distinct;
`_id` is not among them since the store rejects `_id` rewrites.) -/
theorem C8_update_frame (n : String) (body : Doc) (s : State) (c : Doc)
    (hnd : (body.map Prod.fst).Nodup)
    (_hid : "_id" ∉ body.map Prod.fst)
    (h : findOne s.colleges "name" (.str n) = some c) :
    ∃ l₁ l₂ c₂, s.colleges = l₁ ++ c :: l₂
      ∧ (updateCollege none n body s).state.colleges = l₁ ++ c₂ :: l₂
      ∧ (∀ k, k ∉ body.map Prod.fst → getField c₂ k = getField c k)
      ∧ (∀ k v, getField body k = some v → getField c₂ k = some v) := by
  obtain ⟨l₁, l₂, hs, h₁, h₂⟩ :=
    find?_eq_some_decomp s.colleges (fun d => getField d "name" = some (.str n)) c h
  refine ⟨l₁, l₂, setFields c body, hs, ?_, ?_, ?_⟩
  · rw [updateCollege_state]
    show (updateFirst s.colleges _ _).1 = _
    rw [hs, updateFirst_decomp l₁ l₂ c _ _ h₁ h₂]
  · intro k hk
    exact getField_setFields_not_mem body c k hk
  · intro k v hv
    exact getField_setFields_mem body c k v hnd hv

/-- Witness for `C8_update_frame`: updating college `"A"` with a `city`
field; the store splits around `college0` and the updated document keeps
every unmentioned field. -/
theorem C8_update_frame_witness :
    ∃ l₁ l₂ c₂, st0.colleges = l₁ ++ college0 :: l₂
      ∧ (updateCollege none "A" [("city", JVal.str "X")] st0).state.colleges
          = l₁ ++ c₂ :: l₂
      ∧ (∀ k, k ∉ ([("city", JVal.str "X")] : Doc).map Prod.fst →
          getField c₂ k = getField college0 k)
      ∧ (∀ k v, getField [("city", JVal.str "X")] k = some v →
          getField c₂ k = some v) :=
  C8_update_frame "A" [("city", JVal.str "X")] st0 college0
    (by decide) (by decide) (by decide)

/-! ## Claim C6 -/

/-- C6 (confirmed): for a verified login subject (credential present,
exchange status 200), repeating login never creates a second record for the
same email.  If a record with the subject's email exists, the call answers
200 with the logged-in message, performs exactly one store mutation, keeps
the user count unchanged, changes no field other than `last_login` of any
record, and afterwards the record found at that email is the old record with
`last_login` set to the current time.  If no record exists, the call answers
201 with the registered message, performs exactly one store mutation, and the
store gains exactly one record carrying the subject's email, role "student",
and `last_login` equal to the current time. -/
theorem C6_login_idempotent (body info : Doc) (now : DateTime) (s : State) (u : Doc)
    (htok : jTruthy ((getField body "credential").getD .null) = true) :
    (findOne s.users "email" ((getField info "email").getD .null) = some u →
      (googleLogin none body 200 info now s).resp.status = 200
      ∧ (googleLogin none body 200 info now s).resp.message = some "User logged in"
      ∧ (googleLogin none body 200 info now s).writes = 1
      ∧ (googleLogin none body 200 info now s).state.users.length = s.users.length
      ∧ List.Forall₂ (fun d d₂ => ∀ k, k ≠ "last_login" → getField d₂ k = getField d k)
          s.users (googleLogin none body 200 info now s).state.users
      ∧ findOne (googleLogin none body 200 info now s).state.users "email"
          ((getField info "email").getD .null)
        = some (setField u "last_login" (.time now)))
    ∧ (findOne s.users "email" ((getField info "email").getD .null) = none →
      (googleLogin none body 200 info now s).resp.status = 201
      ∧ (googleLogin none body 200 info now s).resp.message = some "New user registered"
      ∧ (googleLogin none body 200 info now s).writes = 1
      ∧ ∃ nd, (googleLogin none body 200 info now s).state.users = s.users ++ [nd]
          ∧ getField nd "email" = some ((getField info "email").getD .null)
          ∧ getField nd "role" = some (.str "student")
          ∧ getField nd "last_login" = some (.time now)) := by
  constructor
  · intro h
    rw [googleLogin_found body info now s u htok h]
    obtain ⟨l₁, l₂, hs, h₁, h₂⟩ := find?_eq_some_decomp s.users
      (fun d => getField d "email" = some ((getField info "email").getD .null)) u h
    refine ⟨rfl, rfl, rfl, updateFirst_length _ _ _, ?_, ?_⟩
    · exact updateFirst_forall₂ _ _ _ _ (fun d k hk => rfl)
        (fun d k hk => getField_setField_ne d "last_login" k (.time now)
          (fun hh => hk hh.symm))
    · show findOne (updateFirst s.users _ _).1 _ _ = _
      rw [hs, updateFirst_decomp l₁ l₂ u _ _ h₁ h₂]
      have hu : getField u "email" = some ((getField info "email").getD .null) :=
        of_decide_eq_true h₂
      exact find?_append_cons l₁ l₂ _ _ h₁ (decide_eq_true (by
        simp only [setFields]
        rw [getField_setField_ne u "last_login" "email" (.time now) (by decide)]
        exact hu))
  · intro h
    rw [googleLogin_notFound body info now s htok h]
    refine ⟨rfl, rfl, rfl, ?_⟩
    refine ⟨_, rfl, ?_, ?_, ?_⟩
    · rw [getField_setField_ne _ "_id" "email" _ (by decide)]
      simp [getField]
    · rw [getField_setField_ne _ "_id" "role" _ (by decide)]
      simp [getField]
    · rw [getField_setField_ne _ "_id" "last_login" _ (by decide)]
      simp [getField]

/-- Witness for `C6_login_idempotent`: a repeat login for the registered
user, and a first login against a store with no users. -/
theorem C6_login_idempotent_witness :
    ((googleLogin none loginBody 200 tokenInfo t1 st0).resp.status = 200
      ∧ (googleLogin none loginBody 200 tokenInfo t1 st0).resp.message =
          some "User logged in"
      ∧ (googleLogin none loginBody 200 tokenInfo t1 st0).writes = 1
      ∧ (googleLogin none loginBody 200 tokenInfo t1 st0).state.users.length =
          st0.users.length
      ∧ List.Forall₂ (fun d d₂ => ∀ k, k ≠ "last_login" → getField d₂ k = getField d k)
          st0.users (googleLogin none loginBody 200 tokenInfo t1 st0).state.users
      ∧ findOne (googleLogin none loginBody 200 tokenInfo t1 st0).state.users "email"
          ((getField tokenInfo "email").getD .null)
        = some (setField user0 "last_login" (.time t1)))
    ∧ ((googleLogin none loginBody 200 tokenInfo t1 stEmpty).resp.status = 201
      ∧ (googleLogin none loginBody 200 tokenInfo t1 stEmpty).resp.message =
          some "New user registered"
      ∧ (googleLogin none loginBody 200 tokenInfo t1 stEmpty).writes = 1
      ∧ ∃ nd, (googleLogin none loginBody 200 tokenInfo t1 stEmpty).state.users =
            stEmpty.users ++ [nd]
          ∧ getField nd "email" = some ((getField tokenInfo "email").getD .null)
          ∧ getField nd "role" = some (.str "student")
          ∧ getField nd "last_login" = some (.time t1)) :=
  ⟨(C6_login_idempotent loginBody tokenInfo t1 st0 user0 (by decide)).1 (by decide),
   (C6_login_idempotent loginBody tokenInfo t1 stEmpty user0 (by decide)).2 (by decide)⟩

/-! ## Claim C9 -/

/-- C9 (confirmed): when login succeeds for an already-registered email, the
record in the response body is the record as fetched BEFORE this call's
`last_login` update (only its `_id` is stringified): its `last_login` is the
previous login time, while the record now stored at that email carries
`last_login` equal to the current time; whenever the previous value differs
from the current time, the response's `last_login` is not the value just
written. -/
theorem C9_login_returns_pre_update (body info : Doc) (now : DateTime)
    (s : State) (u : Doc)
    (htok : jTruthy ((getField body "credential").getD .null) = true)
    (h : findOne s.users "email" ((getField info "email").getD .null) = some u) :
    ∃ rd, (googleLogin none body 200 info now s).resp.data = some rd
      ∧ getField rd "last_login" = getField u "last_login"
      ∧ (∃ u₂, findOne (googleLogin none body 200 info now s).state.users "email"
            ((getField info "email").getD .null) = some u₂
          ∧ getField u₂ "last_login" = some (.time now))
      ∧ (getField u "last_login" ≠ some (.time now) →
          getField rd "last_login" ≠ some (.time now)) := by
  rw [googleLogin_found body info now s u htok h]
  refine ⟨setField u "_id" (idToStr (getField u "_id")), rfl, ?_, ?_, ?_⟩
  · exact getField_setField_ne u "_id" "last_login" _ (by decide)
  · obtain ⟨l₁, l₂, hs, h₁, h₂⟩ := find?_eq_some_decomp s.users
      (fun d => getField d "email" = some ((getField info "email").getD .null)) u h
    refine ⟨setField u "last_login" (.time now), ?_,
      getField_setField_self u "last_login" _⟩
    show findOne (updateFirst s.users _ _).1 _ _ = _
    rw [hs, updateFirst_decomp l₁ l₂ u _ _ h₁ h₂]
    have hu : getField u "email" = some ((getField info "email").getD .null) :=
      of_decide_eq_true h₂
    exact find?_append_cons l₁ l₂ _ _ h₁ (decide_eq_true (by
      simp only [setFields]
      rw [getField_setField_ne u "last_login" "email" (.time now) (by decide)]
      exact hu))
  · intro hne
    rw [getField_setField_ne u "_id" "last_login" _ (by decide)]
    exact hne

/-- Witness for `C9_login_returns_pre_update`: repeat login of the registered
user at the later time `t1`; the stored `last_login` was `t0`. -/
theorem C9_login_returns_pre_update_witness :
    ∃ rd, (googleLogin none loginBody 200 tokenInfo t1 st0).resp.data = some rd
      ∧ getField rd "last_login" = getField user0 "last_login"
      ∧ (∃ u₂, findOne (googleLogin none loginBody 200 tokenInfo t1 st0).state.users
            "email" ((getField tokenInfo "email").getD .null) = some u₂
          ∧ getField u₂ "last_login" = some (.time t1))
      ∧ (getField user0 "last_login" ≠ some (.time t1) →
          getField rd "last_login" ≠ some (.time t1)) :=
  C9_login_returns_pre_update loginBody tokenInfo t1 st0 user0 (by decide) (by decide)

/-! ## Claim C10 -/

/-- The update part of event update succeeds whenever some event matches the
id and the current time differs from every matching event's stored
`updated_at`: the unconditional `updated_at = now` stamp guarantees the
document changes, so `modified_count` is positive. -/
theorem updateEventApply_success (i : Nat) (body : Doc) (now : DateTime)
    (s : State) (hnd : (body.map Prod.fst).Nodup)
    (hne : ∀ d ∈ s.events, getField d "_id" = some (.oid i) →
      getField d "updated_at" ≠ some (.time now))
    (hex : ∃ d ∈ s.events, getField d "_id" = some (.oid i)) :
    (updateEventApply none i body now s).resp =
      okMsg 200 "Event updated successfully" := by
  cases hfind : s.events.find? (fun d => getField d "_id" = some (.oid i)) with
  | none =>
    obtain ⟨d, hd, hdid⟩ := hex
    rw [List.find?_eq_none] at hfind
    exact absurd (decide_eq_true hdid) (by simpa using hfind d hd)
  | some u =>
    obtain ⟨l₁, l₂, hs, h₁, h₂⟩ := find?_eq_some_decomp _ _ _ hfind
    have humem : u ∈ s.events := by
      rw [hs]
      exact List.mem_append_right _ (List.mem_cons_self u l₂)
    have huid : getField u "_id" = some (.oid i) := of_decide_eq_true h₂
    have hune := hne u humem huid
    have hset : getField (setFields u (setField body "updated_at" (.time now)))
        "updated_at" = some (.time now) :=
      getField_setFields_mem _ _ _ _ (nodup_keys_setField body "updated_at" _ hnd)
        (getField_setField_self body "updated_at" _)
    have hchanged : setFields u (setField body "updated_at" (.time now)) ≠ u :=
      fun heq => hune (heq ▸ hset)
    simp only [updateEventApply]
    rw [hs, updateFirst_decomp l₁ l₂ u _ _ h₁ h₂]
    simp [hchanged]

/-- C10 (confirmed): for an event-update request with a well-formed (or
absent) `date` and the current time differing from the stored `updated_at` of
any event matching the id, the call succeeds whenever the id resolves to an
existing event (the unconditional `updated_at = now` stamp always modifies
the document), so under that hypothesis a 404 answer implies no stored event
carries the id — never a no-op.  (`body` is a parsed JSON object, so its keys
are distinct; `_id` is not among them since the store rejects `_id`
rewrites.) -/
theorem C10_update_event_always_modifies (i : Nat) (body : Doc) (now : DateTime)
    (s : State) (hnd : (body.map Prod.fst).Nodup)
    (_hid : "_id" ∉ body.map Prod.fst)
    (hdate : getField body "date" = none ∨
      ∃ ds t, getField body "date" = some (.str ds) ∧ parseTS ds = some t)
    (hne : ∀ d ∈ s.events, getField d "_id" = some (.oid i) →
      getField d "updated_at" ≠ some (.time now)) :
    ((∃ d ∈ s.events, getField d "_id" = some (.oid i)) →
      (updateEvent none i body now s).resp = okMsg 200 "Event updated successfully")
    ∧ ((updateEvent none i body now s).resp.status = 404 →
      ∀ d ∈ s.events, getField d "_id" ≠ some (.oid i)) := by
  have hmain : (∃ d ∈ s.events, getField d "_id" = some (.oid i)) →
      (updateEvent none i body now s).resp = okMsg 200 "Event updated successfully" := by
    intro hex
    rcases hdate with hd | ⟨ds, t, hd, hp⟩
    · simp only [updateEvent, hd]
      exact updateEventApply_success i body now s hnd hne hex
    · simp only [updateEvent, hd, hp]
      exact updateEventApply_success i (setField body "date" (.time t)) now s
        (nodup_keys_setField body "date" _ hnd) hne hex
  refine ⟨hmain, ?_⟩
  intro h404 d hd hdid
  have hres := hmain ⟨d, hd, hdid⟩
  rw [hres] at h404
  simp [okMsg] at h404

/-- Witness for `C10_update_event_always_modifies`: updating the stored event
`0` at the later time `t1` succeeds. -/
theorem C10_update_event_always_modifies_witness :
    (updateEvent none 0 [("location", JVal.str "lab")] t1 st0).resp =
      okMsg 200 "Event updated successfully" :=
  (C10_update_event_always_modifies 0 [("location", JVal.str "lab")] t1 st0
    (by decide) (by decide) (Or.inl (by decide)) (by decide)).1
    ⟨event0, by decide, by decide⟩
